import Mathlib

/-!
Shallow embedding of the system dataset lifecycle manager
(`src/middlewared/middlewared/plugins/sysdataset.py`) and proofs of the
specification claims about it.

External collaborators (pool queries, service supervisor, filesystem
primitives) are modelled as explicit parameters and result oracles; the
control flow, orderings and error propagation are translated directly from
the source.
-/

namespace SysDataset

/-- Stable mountpoint of the system dataset (`SYSDATASET_PATH`, sysdataset.py line 25). -/
def SYSDATASET_PATH : String := "/var/db/system"

/-- Modelled from the spec: the clustering volume child name
(`CTDBConfig.CTDB_VOL_NAME.value`); the `cluster_linux.utils` module is not part
of the excerpt under src/, and the spec only fixes that the topology has one
shared clustering-volume child. Its concrete value never matters to the claims. -/
def CTDB_VOL_NAME : String := "ctdb_shared_vol"

/-- Child labels of the system dataset tree for instance `uuid`: the list
comprehension inside `__get_datasets` (sysdataset.py lines 509-514). -/
def childLabels (uuid : String) : List String :=
  ["cores", "samba4", "syslog-" ++ uuid,
   "rrd-" ++ uuid, "configs-" ++ uuid,
   "webui", "services",
   "glusterd", CTDB_VOL_NAME]

/-- Embedding of `SystemDatasetService.__get_datasets` (lines 507-515): the root
dataset paired with the empty label, followed by the named children. -/
def get_datasets (pool uuid : String) : List (String × String) :=
  (pool ++ "/.system", "") ::
    (childLabels uuid).map (fun i => (pool ++ "/.system/" ++ i, i))

/-! ## Mount manager (`__mount`, lines 438-473)

The mount state is the set of currently mounted mountpoints (what
`Path(mp).is_mount()` inspects). A successful `mount -t zfs dataset mountpoint`
adds the mountpoint. The directory creation inside `is_mounted` and the
glustereventsd init job at the end of `__mount` (lines 462-471, which only logs
on error) do not affect the mount table or the returned flag and are omitted. -/

/-- Mountpoint computed for one topology entry (lines 451-454): `path/name` for a
named child, `path` itself for the root entry. -/
def mountpointOf (path name : String) : String :=
  if name ≠ "" then path ++ "/" ++ name else path

/-- One pass of the `for dataset, name in self.__get_datasets(...)` loop of
`__mount` (lines 449-460). Returns the new mount state, whether any new mount
was performed (`mounted`), and the list of datasets actually passed to the
`mount` command. -/
def mountLoop (path : String) : List String → List (String × String) →
    List String × Bool × List String
  | st, [] => (st, false, [])
  | st, (dataset, name) :: rest =>
    let mp := mountpointOf path name
    if mp ∈ st then
      mountLoop path st rest
    else
      let r := mountLoop path (mp :: st) rest
      (r.1, true, dataset :: r.2.2)

/-- Embedding of `SystemDatasetService.__mount` (lines 438-473) on mount state `st`. -/
def mount (pool uuid path : String) (st : List String) :
    List String × Bool × List String :=
  mountLoop path st (get_datasets pool uuid)

/-! ## Unmount (`__umount`, lines 475-505) -/

/-- Errors a Python callable can surface to its awaiting caller. `callError`
models `middlewared.service.CallError`; `typeError` models a built-in
`TypeError`. -/
inductive PyError where
  | callError (msg : String)
  | typeError (msg : String)
deriving DecidableEq

/-- Substring test, modelling the Python expression `pat in s`. -/
def strContains (s pat : String) : Bool :=
  decide (pat.toList <:+: s.toList)

/-- Suffix test, modelling the Python expression `s.endswith(pat)`. -/
def strEndsWith (s pat : String) : Bool :=
  decide (pat.toList <:+ s.toList)

/-- Environment of one `__umount` call: the collaborator results it consumes.
`umountStderr d` is `none` when `umount <flags> d` exits 0, and `some stderr`
when it raises `CalledProcessError` with that decoded stderr. `licensed` is
`failover.licensed` (line 485). `partitions` is the `psutil.disk_partitions()`
table (device, mountpoint) read by the local `get_mp`; `processesUsing mp` is
the JSON dump of `pool.dataset.processes_using_paths` for `mp` (lines 500-503). -/
structure UmountEnv where
  licensed : Bool
  umountStderr : String → Option String
  partitions : List (String × String)
  processesUsing : String → String

/-- The local `get_mp` helper of `__umount` (lines 476-481): first partition whose
device equals the dataset, returning its mountpoint. -/
def get_mp (env : UmountEnv) (dataset : String) : Option String :=
  ((env.partitions).find? (fun p => p.1 = dataset)).map (fun p => p.2)

/-- The `for dataset, name in reversed(...)` loop body of `__umount`
(lines 486-505), returning the datasets an `umount` command was attempted on, in
order, and the overall outcome. A stderr containing `no mount point specified`
is treated as already-unmounted and the loop continues. On any other failure an
error message `Unable to umount ...` is built; when the stderr contains
`target is busy`, line 497 invokes `run_in_thread` passing the string literal
`get_mp` in place of the local function `get_mp`, so the worker thread calls a
`str` object and a `TypeError` propagates instead of the enriched `CallError`
that lines 498-505 intend to raise. -/
def umountLoop (env : UmountEnv) : List (String × String) →
    List String × Except PyError Unit
  | [] => ([], .ok ())
  | (dataset, _name) :: rest =>
    match env.umountStderr dataset with
    | none =>
      let r := umountLoop env rest
      (dataset :: r.1, r.2)
    | some stderr =>
      if strContains stderr "no mount point specified" then
        let r := umountLoop env rest
        (dataset :: r.1, r.2)
      else
        let error := "Unable to umount " ++ dataset ++ ": " ++ stderr
        if strContains stderr "target is busy" then
          ([dataset], .error (.typeError "str object is not callable"))
        else
          ([dataset], .error (.callError error))

/-- The enriched error message lines 495-503 construct for a busy target once the
mountpoint is known: what `__umount` would raise were `get_mp` actually invoked. -/
def intendedBusyError (env : UmountEnv) (dataset stderr : String) : String :=
  let error := "Unable to umount " ++ dataset ++ ": " ++ stderr
  match get_mp env dataset with
  | none => error
  | some mp =>
    error ++ "\nThe following processes are using " ++ mp ++ ": " ++
      env.processesUsing mp

/-- Embedding of `SystemDatasetService.__umount` (lines 475-505): unmounts the
coredump bind-mount (line 483, `check=False`, not part of the dataset loop),
then walks the topology in reverse. -/
def umount (env : UmountEnv) (pool uuid : String) :
    List String × Except PyError Unit :=
  umountLoop env ((get_datasets pool uuid).reverse)

/-! ## Quiesce guard (`_release_system_dataset`, lines 551-584) and the
effect-trace model shared with `migrate`. -/

/-- Observable collaborator calls made by `migrate` and the quiesce guard. -/
inductive Eff where
  | setupDatasets (pool uuid : String)
  | mkdir (path : String)
  | umountRecursive (path : String)
  | mountDs (pool uuid path : String)
  | rsync (src dst : String)
  | umountCoredump
  | umountDs (pool uuid : String)
  | destroyRecursive (dataset : String)
  | rmdir (path : String)
  | cachePut (key : String) (value : Bool)
  | cachePop (key : String)
  | restartService (name : String)
  | stopLogging
  | stopService (name : String)
  | startService (name : String)
deriving DecidableEq

/-- Which of the candidate services the supervisor reports as started (or, for
webdav, started-or-enabled) when the guard is entered (lines 555-564). -/
structure SvcFlags where
  cifs : Bool
  glusterd : Bool
  webdav : Bool
  openVmTools : Bool
  idmap : Bool
deriving DecidableEq

/-- The `restart` list built at guard entry (lines 553-564): base list
`[collectd, rrdcached, syslogd]`, `cifs` then `glusterd` inserted at position 0,
`webdav`, `open-vm-tools`, `idmap` appended, each conditionally. -/
def releaseRestartList (svc : SvcFlags) : List String :=
  let restart := ["collectd", "rrdcached", "syslogd"]
  let restart := if svc.cifs then "cifs" :: restart else restart
  let restart := if svc.glusterd then "glusterd" :: restart else restart
  let restart := if svc.webdav then restart ++ ["webdav"] else restart
  let restart := if svc.openVmTools then restart ++ ["open-vm-tools"] else restart
  let restart := if svc.idmap then restart ++ ["idmap"] else restart
  restart

/-- Effects the guard performs before yielding (lines 566-577): disable
syslog-to-dataset, bounce syslogd off the dataset, stop internal log
consumption, then stop each captured service in list order. -/
def releaseEntryTrace (svc : SvcFlags) : List Eff :=
  [.cachePut "use_syslog_dataset" false, .restartService "syslogd", .stopLogging]
    ++ (releaseRestartList svc).map .stopService

/-- Effects the `finally` block performs (lines 579-584): restore the
syslog-to-dataset eligibility flag, then start the captured services in
reverse order. -/
def releaseExitTrace (svc : SvcFlags) : List Eff :=
  .cachePop "use_syslog_dataset" ::
    ((releaseRestartList svc).reverse.map .startService)

/-- Embedding of `async with self._release_system_dataset():` wrapping a guarded
block given as its own trace and outcome. The `finally` effects run whether the
block succeeds or raises, and the block error, if any, propagates. -/
def withReleaseSystemDataset (svc : SvcFlags)
    (block : List Eff × Option PyError) : List Eff × Option PyError :=
  (releaseEntryTrace svc ++ block.1 ++ releaseExitTrace svc, block.2)

/-- Services stopped in a trace, in order. -/
def stopsOf (t : List Eff) : List String :=
  t.filterMap (fun e => match e with | .stopService s => some s | _ => none)

/-- Services started in a trace, in order. -/
def startsOf (t : List Eff) : List String :=
  t.filterMap (fun e => match e with | .startService s => some s | _ => none)

/-! ## Migration orchestrator (`migrate`, lines 517-549) -/

/-- Environment of one `migrate` call: the instance uuid from `config()`, whether
`/tmp/system.new` already exists (line 526), the exit code and stderr of the
`rsync -az` copy (line 537), and the supervisor state captured by the guard. -/
structure MigrateEnv where
  uuid : String
  scratchExists : Bool
  rsyncReturncode : Nat
  rsyncStderr : String
  svc : SvcFlags
deriving DecidableEq

/-- Embedding of `SystemDatasetService.migrate` (lines 517-549) as an effect trace
plus outcome. With a previous pool (`_from` non-empty, Python truthiness) the new
topology is mounted at the scratch path `/tmp/system.new` (creating it, or
`umount -R`-cleaning a leftover from a previous attempt); then, inside the
quiesce guard, the rsync copy runs, and only on exit code 0 do the coredump
unmount, the two dataset-tree unmounts, the stable remount and the recursive
destroy of the old subtree follow. A non-zero exit code raises
`CallError` (line 549). With no previous pool the topology is mounted directly
at the stable path and the guarded block does nothing. -/
def migrate (env : MigrateEnv) (_from _to : String) : List Eff × Option PyError :=
  let pre : List Eff := [.setupDatasets _to env.uuid]
  if _from ≠ "" then
    let path := "/tmp/system.new"
    let prep : List Eff :=
      if ¬ env.scratchExists then [.mkdir path] else [.umountRecursive path]
    let block : List Eff × Option PyError :=
      if env.rsyncReturncode = 0 then
        ([.rsync (SYSDATASET_PATH ++ "/") path, .umountCoredump,
          .umountDs _from env.uuid, .umountDs _to env.uuid,
          .mountDs _to env.uuid SYSDATASET_PATH,
          .destroyRecursive (_from ++ "/.system"), .rmdir path], none)
      else
        ([.rsync (SYSDATASET_PATH ++ "/") path],
         some (.callError ("Failed to rsync from " ++ SYSDATASET_PATH ++ ": "
           ++ env.rsyncStderr)))
    let guarded := withReleaseSystemDataset env.svc block
    (pre ++ prep ++ [.mountDs _to env.uuid path] ++ guarded.1, guarded.2)
  else
    let guarded := withReleaseSystemDataset env.svc ([], none)
    (pre ++ [.mountDs _to env.uuid SYSDATASET_PATH] ++ guarded.1, guarded.2)

/-- A mount table: which (pool, uuid) dataset trees are mounted at which path. -/
abbrev MountTable := List (String × String × String)

/-- How each effect changes the mount table: `__mount` adds the tree at its path,
`__umount` removes the tree wherever mounted, the scratch cleanup
`umount -R path` removes whatever is mounted under that path; everything else
leaves the table alone. -/
def applyEff (t : MountTable) : Eff → MountTable
  | .mountDs p u path => (p, u, path) :: t
  | .umountDs p u => t.filter (fun e => ¬ (e.1 = p ∧ e.2.1 = u))
  | .umountRecursive path => t.filter (fun e => e.2.2 ≠ path)
  | _ => t

/-- Mount table after a whole effect trace. -/
def applyTrace (t : MountTable) (es : List Eff) : MountTable :=
  es.foldl applyEff t

/-! ## Resolved configuration (`config_extend`, lines 71-75) and the start of
`setup` (lines 311-312). -/

/-- Python `a or b` on strings, with `None` represented as the empty string:
the left operand when truthy (non-empty), else the right. -/
def pyOrStr (a b : String) : String :=
  if a = "" then b else a

/-- The effective pool computed by `config_extend` line 73:
`self.force_pool or config[pool] or await boot.pool_name()`. -/
def resolvedPool (forcePool : Option String) (storedPool bootPool : String) :
    String :=
  pyOrStr (pyOrStr (forcePool.getD "") storedPool) bootPool

/-- Process-wide mutable state of the service that the claims touch: the
`force_pool` attribute (line 59). -/
structure ServiceState where
  forcePool : Option String
deriving DecidableEq

/-- The first two statements of `setup` (lines 311-312): clear `force_pool`,
then read the resolved configuration. Returns the new state and the pool field
of the configuration that the rest of `setup` sees. -/
def setupEntry (_st : ServiceState) (storedPool bootPool : String) :
    ServiceState × String :=
  let st' : ServiceState := { forcePool := none }
  (st', resolvedPool st'.forcePool storedPool bootPool)

/-! ## Pool selector -/

/-- Outcome of `destination_pool_error` (lines 244-268), abstracting the
formatted message strings (the source interpolates `format_size` output into
them; the structure and triggering conditions are preserved). -/
inductive DestError where
  | datasetDoesNotExist (pool : String)
  | insufficientSpace (pool : String) (available needed : Nat)
deriving DecidableEq

/-- The inflation `int(used * 1.1)` of line 263. Python computes this with a
float multiply then truncates; exact rational arithmetic (floor of 11·used/10)
is used here in its place. -/
def inflateUsed (used : Nat) : Nat :=
  used * 11 / 10

/-- Embedding of `SystemDatasetService.destination_pool_error` (lines 244-268).
`existingUsed` is the `used` property of the dataset at the current
`basename`, `none` when `zfs.dataset.get_instance` raises `InstanceNotFound`
(line 250: no data yet, nothing to check). `destAvailable` is the `available`
property of the `new_pool` dataset, `none` when that lookup raises
`InstanceNotFound` (line 257). -/
def destination_pool_error (existingUsed : Option Nat)
    (destAvailable : Option Nat) (new_pool : String) : Option DestError :=
  match existingUsed with
  | none => none
  | some used =>
    match destAvailable with
    | none => some (.datasetDoesNotExist new_pool)
    | some available =>
      let used := inflateUsed used
      if available < used then
        some (.insufficientSpace new_pool available used)
      else
        none

/-- One candidate from `pool.query` together with what the
`pool.dataset.query [[name, =, p], [OR, [[key_format.value, =, PASSPHRASE],
[locked, =, True]]]]` probe reports about its root dataset. -/
structure PoolInfo where
  name : String
  rootPassphrase : Bool
  rootLocked : Bool
deriving DecidableEq

/-- The automatic-selection loop of `do_update` (lines 191-208), entered when the
caller leaves the pool unspecified: walk the pools in query order, skip the
excluded pool and any with a passphrase-encrypted or locked root, skip any that
fails the feasibility check, take the first survivor; when the loop exhausts,
the stored pool is reset to the empty string (lines 205-208). -/
def selectAutoPool (pools : List PoolInfo) (pool_exclude : Option String)
    (destErr : String → Option DestError) : String :=
  match pools with
  | [] => ""
  | p :: rest =>
    if pool_exclude = some p.name ∨ p.rootPassphrase ∨ p.rootLocked then
      selectAutoPool rest pool_exclude destErr
    else if (destErr p.name).isSome then
      selectAutoPool rest pool_exclude destErr
    else
      p.name

/-- Embedding of `SystemDatasetService._query_pool_for_system_dataset`
(lines 390-399): same walk but without the feasibility check, returning the
first eligible pool or `none`. -/
def query_pool_for_system_dataset (pools : List PoolInfo)
    (exclude_pool : Option String) : Option PoolInfo :=
  match pools with
  | [] => none
  | p :: rest =>
    if (exclude_pool.isSome ∧ exclude_pool = some p.name)
        ∨ p.rootPassphrase ∨ p.rootLocked then
      query_pool_for_system_dataset rest exclude_pool
    else
      some p

/-- Embedding of `SystemDatasetService.pool_choices` (lines 115-133):
`set([boot_pool, current_pool] + [ds for ds in valid_root_ds if ds in pools])`,
as a deduplicated list. `valid_root_ds` is the list of root-dataset ids whose
key format is not PASSPHRASE and which are not locked. -/
def pool_choices (boot_pool current_pool : String) (pools : List String)
    (valid_root_ds : List String) : List String :=
  (boot_pool :: current_pool ::
    (valid_root_ds.filter (fun ds => ds ∈ pools))).dedup

/-! ## Dataset setup (`__setup_datasets`, lines 401-437) -/

/-- Properties of an existing dataset as returned by `zfs.dataset.query`:
the current values of the three (or, for cores, four) managed properties and
the parsed `used` bytes. -/
structure DsProps where
  mountpoint : String
  readonly : String
  snapdir : String
  quota : String
  used : Nat
deriving DecidableEq

/-- Current value of a managed property by key, the lookup
`datasets_prop[dataset][k][value]` of line 430. -/
def propValue (cur : DsProps) : String → String
  | "mountpoint" => cur.mountpoint
  | "readonly" => cur.readonly
  | "snapdir" => cur.snapdir
  | "quota" => cur.quota
  | _ => ""

/-- The `props` dict of lines 410-413 in insertion order: always mountpoint,
readonly, snapdir, with a 1G quota added for the cores dataset. -/
def setupProps (is_cores_ds : Bool) : List (String × String) :=
  [("mountpoint", "legacy"), ("readonly", "off"), ("snapdir", "hidden")]
    ++ (if is_cores_ds then [("quota", "1G")] else [])

/-- ZFS-level actions `__setup_datasets` performs, plus the warning log the
`except` clause of lines 426-427 emits instead of re-raising. -/
inductive ZfsEff where
  | create (name : String) (props : List (String × String))
  | delete (name : String) (force recursive : Bool)
  | update (name : String) (props : List (String × String))
  | logWarning (dataset : String)
deriving DecidableEq

/-- Where, if anywhere, the guarded replacement of an over-quota cores dataset
(the `try` of lines 420-425: delete then create) fails. -/
inductive ReplaceOutcome where
  | ok
  | failAtDelete
  | failAtCreate
deriving DecidableEq

/-- The body of the `for dataset in datasets` loop of `__setup_datasets`
(lines 409-436) for one dataset. `existing` is the `datasets_prop` map built at
line 406. A missing dataset is created with the managed properties. An existing
cores dataset whose used bytes reach 1 GiB (1024³) is deleted with
`force=True, recursive=True` and recreated; an exception anywhere in that pair
is caught and logged (lines 426-427), never raised. Any other existing dataset
gets a property update restricted to the managed keys whose current value
differs (lines 429-436). -/
def setupOneDataset (existing : List (String × DsProps))
    (replace : ReplaceOutcome) (dataset : String) : List ZfsEff :=
  let is_cores_ds := strEndsWith dataset "/cores"
  let props := setupProps is_cores_ds
  match existing.lookup dataset with
  | none => [.create dataset props]
  | some cur =>
    if is_cores_ds ∧ cur.used ≥ 1024 ^ 3 then
      match replace with
      | .ok => [.delete dataset true true, .create dataset props]
      | .failAtDelete => [.logWarning dataset]
      | .failAtCreate => [.delete dataset true true, .logWarning dataset]
    else
      let update_props := props.filter (fun kv => propValue cur kv.1 ≠ kv.2)
      if update_props ≠ [] then [.update dataset update_props] else []

/-- Embedding of `SystemDatasetService.__setup_datasets` (lines 401-437) over the
whole topology of `(pool, uuid)`. It is a total function into a trace: the only
failure the source anticipates, the cores replacement, is logged, not raised. -/
def setup_datasets (pool uuid : String) (existing : List (String × DsProps))
    (replace : ReplaceOutcome) : List ZfsEff :=
  ((get_datasets pool uuid).map Prod.fst).flatMap
    (setupOneDataset existing replace)

/-! ## Fixture values used by concrete evaluations -/

/-- Pool-independent suffixes of the topology dataset names: every dataset name
is the pool name followed by its suffix (root: `/.system`, child `i`:
`/.system/i`). -/
def datasetSuffixes (uuid : String) : List String :=
  "/.system" :: (childLabels uuid).map (fun i => "/.system/" ++ i)

/-- Concrete `__umount` environment exercising the busy-target path: the root
dataset of pool `tank` fails with a busy stderr, its cores child reports
already-unmounted, everything else unmounts cleanly, and the mount table knows
the mountpoint of the root dataset. -/
def umountBugEnv : UmountEnv where
  licensed := false
  umountStderr := fun d =>
    if d = "tank/.system" then some "umount: /var/db/system: target is busy."
    else if d = "tank/.system/cores" then some "umount: no mount point specified"
    else none
  partitions := [("tank/.system", "/var/db/system")]
  processesUsing := fun _ => "[]"

/-! ## Helper lemmas -/

theorem umountLoop_all_ok (env : UmountEnv) (h : ∀ d, env.umountStderr d = none) :
    ∀ ds : List (String × String), umountLoop env ds = (ds.map Prod.fst, .ok ()) := by
  intro ds
  induction ds with
  | nil => rfl
  | cons e rest ih =>
    obtain ⟨d, n⟩ := e
    simp [umountLoop, h d, ih]

theorem mountLoop_mem (path : String) :
    ∀ (ds : List (String × String)) (st : List String) (x : String),
      x ∈ st → x ∈ (mountLoop path st ds).1 := by
  intro ds
  induction ds with
  | nil => intro st x hx; simpa [mountLoop] using hx
  | cons e rest ih =>
    intro st x hx
    obtain ⟨d, n⟩ := e
    by_cases hm : mountpointOf path n ∈ st
    · simpa [mountLoop, hm] using ih st x hx
    · simpa [mountLoop, hm] using
        ih (mountpointOf path n :: st) x (List.mem_cons_of_mem _ hx)

theorem mountLoop_covers (path : String) :
    ∀ (ds : List (String × String)) (st : List String),
      ∀ e ∈ ds, mountpointOf path e.2 ∈ (mountLoop path st ds).1 := by
  intro ds
  induction ds with
  | nil => intro st e he; simp at he
  | cons a rest ih =>
    intro st e he
    obtain ⟨d, n⟩ := a
    rcases List.mem_cons.mp he with he | he
    · subst he
      by_cases hm : mountpointOf path n ∈ st
      · simpa [mountLoop, hm] using mountLoop_mem path rest st _ hm
      · simpa [mountLoop, hm] using
          mountLoop_mem path rest (mountpointOf path n :: st) _ (List.mem_cons_self _ _)
    · by_cases hm : mountpointOf path n ∈ st
      · simpa [mountLoop, hm] using ih st e he
      · simpa [mountLoop, hm] using ih (mountpointOf path n :: st) e he

theorem mountLoop_all_skip (path : String) :
    ∀ (ds : List (String × String)) (st : List String),
      (∀ e ∈ ds, mountpointOf path e.2 ∈ st) → mountLoop path st ds = (st, false, []) := by
  intro ds
  induction ds with
  | nil => intro st _; rfl
  | cons a rest ih =>
    intro st h
    obtain ⟨d, n⟩ := a
    have hm : mountpointOf path n ∈ st := h (d, n) (List.mem_cons_self _ _)
    have hrest : ∀ e ∈ rest, mountpointOf path e.2 ∈ st :=
      fun e he => h e (List.mem_cons_of_mem _ he)
    simp [mountLoop, hm, ih st hrest]

/-! ## Claim theorems -/

/-- Claim C5: for every pool and uuid, `__get_datasets` returns the root dataset
first with the empty label; the ordered list of child labels is identical
regardless of the pool; every dataset name is the pool name followed by a
pool-independent suffix; and `__umount` processes the datasets in exactly the
reverse of this mount order. -/
theorem get_datasets_topology_spec (p₁ p₂ uuid : String) (env : UmountEnv) :
    (get_datasets p₁ uuid).map Prod.snd = (get_datasets p₂ uuid).map Prod.snd ∧
    (get_datasets p₁ uuid).head? = some (p₁ ++ "/.system", "") ∧
    (get_datasets p₁ uuid).map Prod.fst
      = (datasetSuffixes uuid).map (fun s => p₁ ++ s) ∧
    ((∀ d, env.umountStderr d = none) →
      umount env p₁ uuid = (((get_datasets p₁ uuid).reverse).map Prod.fst, .ok ())) := by
  refine ⟨?_, rfl, ?_, ?_⟩
  · simp [get_datasets, List.map_map, Function.comp_def]
  · simp [get_datasets, datasetSuffixes, List.map_map, Function.comp_def,
      String.append_assoc]
  · intro h
    simpa [umount] using umountLoop_all_ok env h ((get_datasets p₁ uuid).reverse)

/-- Witness for C5 at concrete pools, uuid and an all-successful unmount
environment. -/
theorem get_datasets_topology_spec_witness :
    umount ⟨false, fun _ => none, [], fun _ => "[]"⟩ "p1" "u"
      = (((get_datasets "p1" "u").reverse).map Prod.fst, .ok ()) :=
  (get_datasets_topology_spec "p1" "p2" "u" ⟨false, fun _ => none, [], fun _ => "[]"⟩).2.2.2
    (fun _ => rfl)

/-- Claim C6: `__mount` is idempotent — after one call, a second call with the
same pool, uuid and target path on the resulting mount state performs no
additional mount commands, leaves the state unchanged and returns
`mounted = false`. -/
theorem mount_idempotent (pool uuid path : String) (st : List String) :
    mount pool uuid path (mount pool uuid path st).1
      = ((mount pool uuid path st).1, false, []) :=
  mountLoop_all_skip path (get_datasets pool uuid) (mount pool uuid path st).1
    (fun e he => mountLoop_covers path (get_datasets pool uuid) st e he)

/-- Claim C8: the effective pool of the resolved configuration is the forced
pool when set, else the stored pool when non-empty, else the boot pool; and
`setup` clears the forced pool before reading the configuration, so the pool it
sees never reflects a leftover override. -/
theorem resolved_pool_spec (f s b : String) (st : ServiceState) :
    (f ≠ "" → resolvedPool (some f) s b = f) ∧
    resolvedPool none s b = (if s ≠ "" then s else b) ∧
    (setupEntry st s b).1.forcePool = none ∧
    (setupEntry st s b).2 = (if s ≠ "" then s else b) := by
  refine ⟨?_, ?_, rfl, ?_⟩
  · intro hf
    simp [resolvedPool, pyOrStr, hf]
  · by_cases hs : s = "" <;> simp [resolvedPool, pyOrStr, hs]
  · by_cases hs : s = "" <;> simp [setupEntry, resolvedPool, pyOrStr, hs]

/-- Witness for C8 at concrete pool names and a stale forced pool. -/
theorem resolved_pool_spec_witness :
    resolvedPool (some "tank") "stored" "boot" = "tank" ∧
    (setupEntry ⟨some "tank"⟩ "" "boot").1.forcePool = none ∧
    (setupEntry ⟨some "tank"⟩ "" "boot").2 = "boot" := by
  have h := resolved_pool_spec "tank" "" "boot" ⟨some "tank"⟩
  exact ⟨h.1 (by decide), h.2.2.1, by simpa using h.2.2.2⟩

/-- Claim C3: `destination_pool_error` reports nothing when no system dataset
exists at the configured basename; reports a dataset-not-found error when the
destination lookup fails; and reports insufficient space exactly when the
available bytes of the destination are strictly below the existing used bytes
inflated by the 10% margin. -/
theorem destination_pool_error_spec (new_pool : String) (used avail : Nat)
    (dAvail : Option Nat) :
    destination_pool_error none dAvail new_pool = none ∧
    destination_pool_error (some used) none new_pool
      = some (.datasetDoesNotExist new_pool) ∧
    destination_pool_error (some used) (some avail) new_pool
      = (if avail < inflateUsed used then
          some (.insufficientSpace new_pool avail (inflateUsed used)) else none) ∧
    ((destination_pool_error (some used) (some avail) new_pool).isSome
      ↔ avail < inflateUsed used) := by
  refine ⟨rfl, rfl, rfl, ?_⟩
  by_cases h : avail < inflateUsed used <;> simp [destination_pool_error, h]

/-- Claim C9: `pool_choices` always offers both the boot pool and the currently
configured (resolved) pool, whatever the eligible-root-dataset list says. -/
theorem pool_choices_always_offers_boot_and_current (boot current : String)
    (pools valid_root_ds : List String) :
    boot ∈ pool_choices boot current pools valid_root_ds ∧
    current ∈ pool_choices boot current pools valid_root_ds := by
  constructor <;> simp [pool_choices, List.mem_dedup]

theorem stopsOf_map_stop (l : List String) : stopsOf (l.map Eff.stopService) = l := by
  induction l with
  | nil => rfl
  | cons a t ih =>
    simp only [List.map_cons, stopsOf, List.filterMap_cons]
    exact congrArg (a :: ·) ih

theorem startsOf_map_start (l : List String) :
    startsOf (l.map Eff.startService) = l := by
  induction l with
  | nil => rfl
  | cons a t ih =>
    simp only [List.map_cons, startsOf, List.filterMap_cons]
    exact congrArg (a :: ·) ih

theorem stopsOf_entry (svc : SvcFlags) :
    stopsOf (releaseEntryTrace svc) = releaseRestartList svc := by
  simp only [releaseEntryTrace, stopsOf, List.filterMap_append, List.filterMap_cons,
    List.filterMap_nil]
  exact congrArg (List.nil ++ ·) (stopsOf_map_stop (releaseRestartList svc))

theorem startsOf_exit (svc : SvcFlags) :
    startsOf (releaseExitTrace svc) = (releaseRestartList svc).reverse := by
  simp only [releaseExitTrace, startsOf, List.filterMap_cons]
  exact startsOf_map_start (releaseRestartList svc).reverse

/-- Claim C2: whatever the guarded block does (succeed or raise), the quiesce
guard runs its entry effects, the block, then its exit effects, propagating the
block outcome; the services it starts at exit are exactly the services it
stopped at entry in reverse order; and the syslog-to-dataset eligibility flag
is restored (cache pop) before any restart. -/
theorem release_system_dataset_guard (svc : SvcFlags)
    (block : List Eff × Option PyError) :
    withReleaseSystemDataset svc block
      = (releaseEntryTrace svc ++ block.1 ++ releaseExitTrace svc, block.2) ∧
    startsOf (releaseExitTrace svc) = (stopsOf (releaseEntryTrace svc)).reverse ∧
    (releaseExitTrace svc).head? = some (.cachePop "use_syslog_dataset") := by
  refine ⟨rfl, ?_, rfl⟩
  rw [stopsOf_entry, startsOf_exit]

/-- Claim C4: the automatic selection loop never settles on the excluded pool or
on a pool whose root dataset is passphrase-encrypted or locked — any non-empty
result comes from a candidate that is not excluded, not passphrase-encrypted,
not locked, and passes the feasibility check — and when every candidate is
skipped the stored pool is reset to the empty string (the fall-back-to-boot
sentinel) instead of the operation failing. -/
theorem selectAutoPool_spec (pools : List PoolInfo) (excl : Option String)
    (destErr : String → Option DestError) :
    (selectAutoPool pools excl destErr ≠ "" →
      ∃ p ∈ pools, p.name = selectAutoPool pools excl destErr ∧
        excl ≠ some p.name ∧ p.rootPassphrase = false ∧ p.rootLocked = false ∧
        destErr p.name = none) ∧
    ((∀ p ∈ pools, excl = some p.name ∨ p.rootPassphrase = true ∨
        p.rootLocked = true ∨ (destErr p.name).isSome = true) →
      selectAutoPool pools excl destErr = "") := by
  induction pools with
  | nil => exact ⟨fun h => absurd rfl h, fun _ => rfl⟩
  | cons p rest ih =>
    by_cases h1 : excl = some p.name ∨ p.rootPassphrase ∨ p.rootLocked
    · refine ⟨?_, ?_⟩
      · intro hne
        rw [selectAutoPool, if_pos h1] at hne ⊢
        obtain ⟨q, hq, hrest⟩ := ih.1 hne
        exact ⟨q, List.mem_cons_of_mem _ hq, hrest⟩
      · intro hall
        rw [selectAutoPool, if_pos h1]
        exact ih.2 (fun q hq => hall q (List.mem_cons_of_mem _ hq))
    · push_neg at h1
      obtain ⟨hx, hpass, hlock⟩ := h1
      have hpass' : p.rootPassphrase = false := by
        simpa using hpass
      have hlock' : p.rootLocked = false := by
        simpa using hlock
      have hcond : ¬ (excl = some p.name ∨ p.rootPassphrase ∨ p.rootLocked) := by
        simp [hx, hpass', hlock']
      by_cases h2 : (destErr p.name).isSome
      · refine ⟨?_, ?_⟩
        · intro hne
          rw [selectAutoPool, if_neg hcond, if_pos h2] at hne ⊢
          obtain ⟨q, hq, hrest⟩ := ih.1 hne
          exact ⟨q, List.mem_cons_of_mem _ hq, hrest⟩
        · intro hall
          rw [selectAutoPool, if_neg hcond, if_pos h2]
          exact ih.2 (fun q hq => hall q (List.mem_cons_of_mem _ hq))
      · have hnone : destErr p.name = none := Option.not_isSome_iff_eq_none.mp h2
        refine ⟨?_, ?_⟩
        · intro _
          rw [selectAutoPool, if_neg hcond, if_neg h2]
          exact ⟨p, List.mem_cons_self _ _, rfl, hx, hpass', hlock', hnone⟩
        · intro hall
          have := hall p (List.mem_cons_self _ _)
          rcases this with h | h | h | h
          · exact absurd h hx
          · exact absurd h (by simp [hpass'])
          · exact absurd h (by simp [hlock'])
          · exact absurd h (by simp [hnone])

/-- Witness for C4: a sole locked candidate is rejected and the pool resets to
the empty string; a sole healthy candidate is chosen and satisfies the
eligibility facts. -/
theorem selectAutoPool_spec_witness :
    selectAutoPool [⟨"locked1", false, true⟩] none (fun _ => none) = "" ∧
    (∃ p ∈ [PoolInfo.mk "tank" false false],
      p.name = selectAutoPool [PoolInfo.mk "tank" false false] none (fun _ => none) ∧
      (none : Option String) ≠ some p.name ∧ p.rootPassphrase = false ∧
      p.rootLocked = false ∧ (fun _ => (none : Option DestError)) p.name = none) :=
  ⟨(selectAutoPool_spec [⟨"locked1", false, true⟩] none (fun _ => none)).2 (by decide),
   (selectAutoPool_spec [PoolInfo.mk "tank" false false] none (fun _ => none)).1
     (by decide)⟩

/-- Claim C10: on every dataset-setup pass the cores child is in the processed
topology and its managed properties carry the 1G quota; when it does not exist
it is created with that quota; when it exists with at least 1 GiB used it is
deleted with force and recursion and recreated, and a failure anywhere in that
replacement produces a logged warning in the trace instead of an error — the
pass always returns a plain trace. -/
theorem setup_datasets_cores_policy (pool uuid dataset : String)
    (existing : List (String × DsProps)) (cur : DsProps)
    (replace : ReplaceOutcome)
    (hend : strEndsWith dataset "/cores" = true) :
    (pool ++ "/.system/" ++ "cores") ∈ (get_datasets pool uuid).map Prod.fst ∧
    ("quota", "1G") ∈ setupProps true ∧
    (existing.lookup dataset = none →
      setupOneDataset existing replace dataset
        = [.create dataset (setupProps true)]) ∧
    (existing.lookup dataset = some cur → cur.used ≥ 1024 ^ 3 →
      setupOneDataset existing .ok dataset
          = [.delete dataset true true, .create dataset (setupProps true)] ∧
      setupOneDataset existing .failAtDelete dataset = [.logWarning dataset] ∧
      setupOneDataset existing .failAtCreate dataset
          = [.delete dataset true true, .logWarning dataset]) := by
  refine ⟨?_, by simp [setupProps], ?_, ?_⟩
  · simp [get_datasets, childLabels]
  · intro hnone
    simp [setupOneDataset, hnone, hend]
  · intro hsome hused
    have h30 : (1024 : Nat) ^ 3 = 1073741824 := by norm_num
    rw [h30] at hused
    refine ⟨?_, ?_, ?_⟩ <;> simp [setupOneDataset, hsome, hend, hused]

/-- Witness for C10: a fresh cores dataset is created with the 1G quota, and an
over-quota cores dataset is replaced, with the failing replacement logged. -/
theorem setup_datasets_cores_policy_witness :
    setupOneDataset [] .ok ("tank/.system/" ++ "cores")
      = [.create ("tank/.system/" ++ "cores") (setupProps true)] ∧
    setupOneDataset
        [("tank/.system/" ++ "cores", ⟨"legacy", "off", "hidden", "1G", 1024 ^ 3⟩)]
        .failAtCreate ("tank/.system/" ++ "cores")
      = [.delete ("tank/.system/" ++ "cores") true true,
         .logWarning ("tank/.system/" ++ "cores")] :=
  ⟨(setup_datasets_cores_policy "tank" "u" ("tank/.system/" ++ "cores") []
      ⟨"legacy", "off", "hidden", "1G", 1024 ^ 3⟩ .ok (by decide)).2.2.1 rfl,
   ((setup_datasets_cores_policy "tank" "u" ("tank/.system/" ++ "cores")
      [("tank/.system/" ++ "cores", ⟨"legacy", "off", "hidden", "1G", 1024 ^ 3⟩)]
      ⟨"legacy", "off", "hidden", "1G", 1024 ^ 3⟩ .ok (by decide)).2.2.2
      (by decide) (by decide)).2.2⟩

theorem applyTrace_nil (t : MountTable) : applyTrace t [] = t := rfl

theorem applyTrace_cons (t : MountTable) (e : Eff) (l : List Eff) :
    applyTrace t (e :: l) = applyTrace (applyEff t e) l := rfl

theorem applyTrace_append (t : MountTable) (l₁ l₂ : List Eff) :
    applyTrace t (l₁ ++ l₂) = applyTrace (applyTrace t l₁) l₂ :=
  List.foldl_append applyEff t l₁ l₂

theorem applyTrace_map_stop (l : List String) :
    ∀ t : MountTable, applyTrace t (l.map Eff.stopService) = t := by
  induction l with
  | nil => intro t; rfl
  | cons a rest ih => intro t; exact ih t

theorem applyTrace_map_start (l : List String) :
    ∀ t : MountTable, applyTrace t (l.map Eff.startService) = t := by
  induction l with
  | nil => intro t; rfl
  | cons a rest ih => intro t; exact ih t

theorem applyTrace_entry (svc : SvcFlags) (t : MountTable) :
    applyTrace t (releaseEntryTrace svc) = t := by
  show applyTrace t ([_, _, _] ++ (releaseRestartList svc).map Eff.stopService) = t
  rw [applyTrace_append]
  exact applyTrace_map_stop (releaseRestartList svc) t

theorem applyTrace_exit (svc : SvcFlags) (t : MountTable) :
    applyTrace t (releaseExitTrace svc) = t := by
  show applyTrace t (Eff.cachePop _ :: (releaseRestartList svc).reverse.map Eff.startService) = t
  exact applyTrace_map_start (releaseRestartList svc).reverse t

theorem applyTrace_migrate_fail (svc : SvcFlags) (uuid _to src : String)
    (scratchExists : Bool) (t : MountTable) :
    applyTrace t
      (Eff.setupDatasets _to uuid ::
        ((if ¬ scratchExists then [Eff.mkdir "/tmp/system.new"]
          else [Eff.umountRecursive "/tmp/system.new"])
         ++ Eff.mountDs _to uuid "/tmp/system.new" ::
            (releaseEntryTrace svc ++ [Eff.rsync src "/tmp/system.new"]
              ++ releaseExitTrace svc)))
      = (_to, uuid, "/tmp/system.new") ::
          (if scratchExists then
            t.filter (fun e => e.2.2 ≠ "/tmp/system.new") else t) := by
  cases scratchExists <;>
    simp [applyTrace_cons, applyTrace_append, applyTrace_nil, applyTrace_entry,
      applyTrace_exit, applyEff]

/-- Claim C1: a migration between two pools whose rsync copy exits non-zero
raises the copy-failure error and performs no destructive step: the trace has
no dataset-tree unmount, no recursive destroy and no coredump unmount, it does
mount the tree of the new pool at the scratch path, and on any mount table the
tree of the old pool stays mounted at the stable path while the scratch mount
of the new pool is in place afterwards. -/
theorem migrate_copy_failure_safe (env : MigrateEnv) (_from _to : String)
    (hfrom : _from ≠ "") (hrc : env.rsyncReturncode ≠ 0) :
    (migrate env _from _to).2
      = some (.callError ("Failed to rsync from " ++ SYSDATASET_PATH ++ ": "
          ++ env.rsyncStderr)) ∧
    (∀ p u, Eff.umountDs p u ∉ (migrate env _from _to).1) ∧
    (∀ d, Eff.destroyRecursive d ∉ (migrate env _from _to).1) ∧
    Eff.umountCoredump ∉ (migrate env _from _to).1 ∧
    Eff.mountDs _to env.uuid "/tmp/system.new" ∈ (migrate env _from _to).1 ∧
    (∀ (t : MountTable) (p u : String), (p, u, SYSDATASET_PATH) ∈ t →
      (p, u, SYSDATASET_PATH) ∈ applyTrace t (migrate env _from _to).1) ∧
    (∀ t : MountTable,
      (_to, env.uuid, "/tmp/system.new") ∈ applyTrace t (migrate env _from _to).1) := by
  have hmig : migrate env _from _to
      = (Eff.setupDatasets _to env.uuid ::
          ((if ¬ env.scratchExists then [Eff.mkdir "/tmp/system.new"]
            else [Eff.umountRecursive "/tmp/system.new"])
           ++ Eff.mountDs _to env.uuid "/tmp/system.new" ::
              (releaseEntryTrace env.svc
                ++ [Eff.rsync (SYSDATASET_PATH ++ "/") "/tmp/system.new"]
                ++ releaseExitTrace env.svc)),
         some (.callError ("Failed to rsync from " ++ SYSDATASET_PATH ++ ": "
           ++ env.rsyncStderr))) := by
    simp [migrate, hfrom, hrc, withReleaseSystemDataset]
  refine ⟨by rw [hmig], ?_, ?_, ?_, ?_, ?_, ?_⟩
  · intro p u
    rw [hmig]
    by_cases hs : env.scratchExists <;>
      simp [hs, releaseEntryTrace, releaseExitTrace, List.mem_map]
  · intro d
    rw [hmig]
    by_cases hs : env.scratchExists <;>
      simp [hs, releaseEntryTrace, releaseExitTrace, List.mem_map]
  · rw [hmig]
    by_cases hs : env.scratchExists <;>
      simp [hs, releaseEntryTrace, releaseExitTrace, List.mem_map]
  · rw [hmig]
    by_cases hs : env.scratchExists <;> simp [hs]
  · intro t p u hmem
    rw [hmig, applyTrace_migrate_fail]
    apply List.mem_cons_of_mem
    by_cases hs : env.scratchExists
    · simp only [hs, ite_true]
      exact List.mem_filter.mpr
        ⟨hmem, show decide (SYSDATASET_PATH ≠ "/tmp/system.new") = true from by decide⟩
    · simpa [hs] using hmem
  · intro t
    rw [hmig, applyTrace_migrate_fail]
    exact List.mem_cons_self _ _

/-- Witness for C1: a failed copy (exit code 23) from pool `tank` to pool
`backup` raises, removes nothing, and on a table where the tree of `tank` is
mounted at the stable path both that mount and the new scratch mount survive. -/
theorem migrate_copy_failure_safe_witness :
    (migrate ⟨"u", false, 23, "boom", ⟨false, false, false, false, false⟩⟩
        "tank" "backup").2
      = some (.callError ("Failed to rsync from " ++ SYSDATASET_PATH ++ ": "
          ++ "boom")) ∧
    Eff.umountDs "tank" "u"
      ∉ (migrate ⟨"u", false, 23, "boom", ⟨false, false, false, false, false⟩⟩
          "tank" "backup").1 ∧
    Eff.destroyRecursive ("tank" ++ "/.system")
      ∉ (migrate ⟨"u", false, 23, "boom", ⟨false, false, false, false, false⟩⟩
          "tank" "backup").1 ∧
    ("tank", "u", SYSDATASET_PATH)
      ∈ applyTrace [("tank", "u", SYSDATASET_PATH)]
          (migrate ⟨"u", false, 23, "boom", ⟨false, false, false, false, false⟩⟩
            "tank" "backup").1 ∧
    ("backup", "u", "/tmp/system.new")
      ∈ applyTrace [("tank", "u", SYSDATASET_PATH)]
          (migrate ⟨"u", false, 23, "boom", ⟨false, false, false, false, false⟩⟩
            "tank" "backup").1 := by
  have h := migrate_copy_failure_safe
    ⟨"u", false, 23, "boom", ⟨false, false, false, false, false⟩⟩
    "tank" "backup" (by decide) (by decide)
  exact ⟨h.1, h.2.1 "tank" "u", h.2.2.1 ("tank" ++ "/.system"),
    h.2.2.2.2.2.1 [("tank", "u", SYSDATASET_PATH)] "tank" "u" (by simp),
    h.2.2.2.2.2.2 [("tank", "u", SYSDATASET_PATH)]⟩

/-- Claim C7, evaluated at a failing input: the `already unmounted` stderr for
the cores child is tolerated and the loop walks the whole reversed topology,
but when the root dataset reports `target is busy`, line 497 hands the string
literal to the worker thread, so the surfaced failure is a
`TypeError` about calling a `str`, not the `CallError` enriched with the
process list that `intendedBusyError` shows lines 495-503 meant to build. -/
theorem umount_busy_enrichment_bug :
    (umount umountBugEnv "tank" "u").2
      = .error (.typeError "str object is not callable") ∧
    (umount umountBugEnv "tank" "u").1
      = ((get_datasets "tank" "u").reverse).map Prod.fst ∧
    intendedBusyError umountBugEnv "tank/.system"
        "umount: /var/db/system: target is busy."
      = "Unable to umount tank/.system: umount: /var/db/system: target is busy."
        ++ "\nThe following processes are using " ++ "/var/db/system" ++ ": "
        ++ "[]" :=
  ⟨rfl, rfl, rfl⟩

end SysDataset
